import Mathlib

/-!
Verification of the compose-to-quadlet resolution engine of podlet
(`src/cli/compose.rs` and `src/cli/k8s.rs`).

The compose document arrives as validated in-memory entities (the textual
parsing, file I/O and final serialization are out of scope).  Maps from the
`compose_spec` crate are `IndexMap`s: ordered association lists with unique
keys, which we embed as `List (key × value)` iterated in insertion order.
The per-field mappers (`Container::try_from`, `quadlet::Network::try_from`,
`quadlet::Volume::try_from`, the Kubernetes per-service and per-volume
converters) live outside the two source files; they are modelled as oracles
carried inside the compose entities, as the spec declares per-field mapping
out of scope and only their success/failure and the fields threaded through
them (mounts, published ports) matter to the resolution engine.
-/

deriving instance DecidableEq for Except

namespace Podlet

/-- Compose identifiers (service / network / volume names). -/
abbrev Identifier := String

/-- The `compose_spec::Resource` tagged union: a resource is either defined in
the compose file (`Compose`) or externally managed (`External`). -/
inductive Resource (T : Type) where
  | Compose (value : T)
  | External
deriving DecidableEq, Repr

/-- Embeds `Resource::is_external`. -/
def Resource.is_external {T : Type} : Resource T → Bool
  | .External => true
  | .Compose _ => false

/-- Embeds `Resource::as_compose`. -/
def Resource.as_compose {T : Type} : Resource T → Option T
  | .External => none
  | .Compose value => some value

/-- A dependency condition (`compose_spec::service::depends_on::Condition`). -/
inductive Condition where
  | service_started
  | service_healthy
  | service_completed_successfully
deriving DecidableEq, Repr

/-- A long-form dependency entry (`compose_spec::service::depends_on::Dependency`). -/
structure Dependency where
  condition : Condition
  restart : Bool
  required : Bool
deriving DecidableEq, Repr

/-- `compose_spec::service::DependsOn`: a short list of identifiers or a long
mapping from identifier to `Dependency`. -/
inductive DependsOn where
  | short (targets : List Identifier)
  | long (entries : List (Identifier × Dependency))
deriving DecidableEq, Repr

/-- Embeds `DependsOn::into_long`: the short form gets default dependency
semantics (condition `service_started`, no restart link, required). -/
def DependsOn.into_long : DependsOn → List (Identifier × Dependency)
  | .short targets => targets.map fun t => (t, ⟨Condition.service_started, false, true⟩)
  | .long entries => entries

/-- Modelled from the spec: the cli `Unit` section accumulator (declared in the
repository outside the two given source files) records one dependency
ordering directive per target identifier. -/
structure Unit where
  dependencies : List (Identifier × Dependency)
deriving DecidableEq, Repr

/-- Embeds `Unit::default()`. -/
def Unit.default : Unit := ⟨[]⟩

/-- Modelled from the spec: `Unit::add_dependency` records one directive per
target; a target that was already recorded (duplicate or conflicting
condition) is a hard error naming the target identifier. -/
def Unit.add_dependency (u : Unit) (ident : Identifier) (dep : Dependency) :
    Except String Unit :=
  match u.dependencies.lookup ident with
  | some _ => .error ("duplicate or conflicting dependency on `" ++ ident ++ "`")
  | none => .ok ⟨u.dependencies ++ [(ident, dep)]⟩

/-- The source of a container volume mount (`quadlet::container::volume::Source`):
a named volume reference or a host path. -/
inductive Source where
  | NamedVolume (name : String)
  | HostPath (path : String)
deriving DecidableEq, Repr

/-- A container volume mount with an optional source and a container target. -/
structure Mount where
  source : Option Source
  target : String
deriving DecidableEq, Repr

/-- Global (non-container-specific) arguments extracted from a service
(`GlobalArgs`); their contents are opaque to the resolution engine. -/
structure Globals where
  args : List String
deriving DecidableEq, Repr

/-- Embeds `Globals::default()`. -/
def Globals.default : Globals := ⟨[]⟩

/-- An `[Install]` section; its contents are opaque to the resolution engine. -/
structure Install where
  wanted_by : List String
deriving DecidableEq, Repr

/-- A container spec inside a Kubernetes `PodSpec`; opaque contents. -/
structure K8sContainer where
  name : String
deriving DecidableEq, Repr

/-- A Kubernetes `PodSpec`: the list of container specs folded into the pod. -/
abbrev PodSpec := List K8sContainer

/-- A `compose_spec::Service`.  `depends_on`, `restart`, the volume mounts and
published ports are the fields the resolution engine reads; `global_args`
models the fields extracted by `GlobalArgs::from_compose`; `mapping_error`
and `k8s_container` are the oracles for the out-of-scope per-field mappers
(`Container::try_from` and the Kubernetes per-service converter). -/
structure Service where
  depends_on : DependsOn
  restart : Option String
  volumes : List Mount
  ports : List String
  global_args : Globals
  mapping_error : Option String
  k8s_container : Except String K8sContainer
deriving DecidableEq, Repr

/-- A `quadlet::Container` as seen by the resolution engine: its volume
mounts, published ports and pod membership reference. -/
structure Container where
  volume : List Mount
  publish_port : List String
  pod : Option String
deriving DecidableEq, Repr

/-- Modelled from the spec: `Container::try_from(Service)` followed by
`quadlet::Container::from` — the out-of-scope per-field mapper.  It consumes
the service by value; mounts and published ports are threaded through
unchanged, pod membership starts unset, and failure is the service's
mapping oracle. -/
def Container.try_from (s : Service) : Except String Container :=
  match s.mapping_error with
  | some e => .error e
  | none => .ok { volume := s.volumes, publish_port := s.ports, pod := none }

/-- Embeds `GlobalArgs::from_compose`: extracts the global arguments from the
service before the container mapper consumes it. -/
def GlobalArgs.from_compose (s : Service) : Globals := s.global_args

/-- A `compose_spec::Network` together with its out-of-scope mapping oracle
into a `quadlet::Network`. -/
structure ComposeNetwork where
  mapping : Except String (List (String × String))
deriving DecidableEq, Repr

/-- Embeds `Network::default()`: a network declared with no body. -/
def ComposeNetwork.default : ComposeNetwork := ⟨.ok []⟩

/-- A `compose_spec::Volume`: its declared options (whose emptiness decides
`Volume::is_empty`) and the out-of-scope mapping oracles into a
`quadlet::Volume` and a Kubernetes persistent volume claim. -/
structure ComposeVolume where
  options : List (String × String)
  mapping : Except String (List (String × String))
  pvc_mapping : Except String (List (String × String))
deriving DecidableEq, Repr

/-- Embeds `compose_spec::Volume::is_empty`: no options are set. -/
def ComposeVolume.is_empty (v : ComposeVolume) : Bool := v.options.isEmpty

/-- A compose config entity; opaque contents. -/
structure Config where
  data : List (String × String)
deriving DecidableEq, Repr

/-- A compose secret entity; opaque contents. -/
structure Secret where
  data : List (String × String)
deriving DecidableEq, Repr

/-- A `compose_spec::Compose` document. -/
structure Compose where
  name : Option String
  includes : List String
  services : List (Identifier × Service)
  networks : List (Identifier × Option (Resource ComposeNetwork))
  volumes : List (Identifier × Option (Resource ComposeVolume))
  configs : List (Identifier × Resource Config)
  secrets : List (Identifier × Resource Secret)
  extensions : List (String × String)
deriving DecidableEq, Repr

namespace quadlet

/-- The `quadlet::Resource` of one output file: exactly one of container,
network, volume, pod, or kube. -/
inductive Resource where
  | container (c : Container)
  | network (n : List (String × String))
  | volume (v : List (String × String))
  | pod (publish_port : List String)
  | kube (path : String)
deriving DecidableEq, Repr

/-- A `quadlet::File`: the unit-file-mode output artifact. -/
structure File where
  name : String
  unit : Option Podlet.Unit
  resource : Resource
  globals : Globals
  service : Option String
  install : Option Install
deriving DecidableEq, Repr

/-- The published ports of a file's container resource (empty for any other
resource kind). -/
def File.container_ports (f : File) : List String :=
  match f.resource with
  | .container c => c.publish_port
  | _ => []

end quadlet

namespace k8s

/-- A `k8s::File`: the pod name, the folded pod spec, and the persistent
volume claims for options-bearing volumes. -/
structure File where
  name : String
  pod_name : Option String
  pod_spec : PodSpec
  persistent_volume_claims : List (List (String × String))
deriving DecidableEq, Repr

end k8s

/-- The cli `File` enum: a unit-file-mode quadlet file or a Kubernetes YAML
file (the two `Into<File>` conversions used by `try_into_files`). -/
inductive File where
  | Quadlet (file : quadlet.File)
  | K8s (file : k8s.File)
deriving DecidableEq, Repr

/-- Embeds the fail-fast `collect::<Result<Vec<_>, _>>()`: the first error
aborts, otherwise all successes are collected in order. -/
def collectExcept {α : Type} : List (Except String α) → Except String (List α)
  | [] => .ok []
  | x :: xs =>
    match x with
    | .error e => .error e
    | .ok a =>
      match collectExcept xs with
      | .error e => .error e
      | .ok l => .ok (a :: l)

/-- Embeds the `volume_has_options` map built in `parts_try_into_files`
(compose.rs lines 237-246): each top-level volume maps to whether it is
compose-managed with a non-empty option set.  `IndexMap` keys are unique, so
an association list with first-match lookup coincides with the `HashMap` the
source collects into. -/
def volume_has_options
    (volumes : List (Identifier × Option (Resource ComposeVolume))) :
    List (Identifier × Bool) :=
  volumes.map fun p =>
    (p.1, match p.2 with
          | some (Resource.Compose v) => !v.is_empty
          | _ => false)

/-- Embeds the named-volume rewrite loop of `service_try_into_quadlet_file`
(compose.rs lines 346-356): a named-volume source whose name maps to `true`
(`unwrap_or_default` makes unknown names `false`) gets `.volume` appended. -/
def link_volume (vho : List (Identifier × Bool)) (m : Mount) : Mount :=
  match m.source with
  | some (Source.NamedVolume src) =>
    if (vho.lookup src).getD false then
      { m with source := some (Source.NamedVolume (src ++ ".volume")) }
    else m
  | _ => m

/-- Embeds the dependency loop of `service_try_into_quadlet_file` (compose.rs
lines 328-332): each addition is wrapped with the service and target
identifiers on failure. -/
def add_dependencies (name : Identifier) :
    Unit → List (Identifier × Dependency) → Except String Unit
  | u, [] => .ok u
  | u, (ident, dep) :: rest =>
    match u.add_dependency ident dep with
    | .error e =>
      .error ("error adding dependency on `" ++ ident ++ "` to service `" ++
        name ++ "`: " ++ e)
    | .ok u' => add_dependencies name u' rest

/-- Embeds `service_try_into_quadlet_file` (compose.rs lines 317-366). -/
def service_try_into_quadlet_file (service : Service) (name : Identifier)
    (unit : Option Unit) (install : Option Install)
    (vho : List (Identifier × Bool)) : Except String quadlet.File :=
  let dependencies := service.depends_on.into_long
  let unitResult : Except String (Option Unit) :=
    if dependencies.isEmpty then .ok unit
    else
      match add_dependencies name (unit.getD Unit.default) dependencies with
      | .error e => .error e
      | .ok u => .ok (some u)
  match unitResult with
  | .error e => .error e
  | .ok unit =>
    let global_args := GlobalArgs.from_compose service
    let restart := service.restart
    match Container.try_from service with
    | .error e =>
      .error ("error converting service `" ++ name ++
        "` into a Quadlet container: " ++ e)
    | .ok container =>
      .ok { name := name
            unit := unit
            resource := .container
              { container with volume := container.volume.map (link_volume vho) }
            globals := global_args
            service := restart
            install := install }

/-- Builds the quadlet file for one accepted network (compose.rs lines
387-398), wrapping mapper failure with the network identifier. -/
def network_to_file (name : Identifier) (n : ComposeNetwork)
    (unit : Option Unit) (install : Option Install) : Except String quadlet.File :=
  match n.mapping with
  | .error e =>
    .error ("error converting network `" ++ name ++ "` into a Quadlet network: " ++ e)
  | .ok qn =>
    .ok { name := name, unit := unit, resource := .network qn,
          globals := Globals.default, service := none, install := install }

/-- Embeds `networks_try_into_quadlet_files` (compose.rs lines 374-400):
`None` entries become the default network, compose-managed entries go
through the mapper, externally-managed entries are a hard error naming the
network identifier. -/
def networks_try_into_quadlet_files
    (networks : List (Identifier × Option (Resource ComposeNetwork)))
    (unit : Option Unit) (install : Option Install) :
    List (Except String quadlet.File) :=
  networks.map fun p =>
    match p.2 with
    | some Resource.External =>
      .error ("external networks (`" ++ p.1 ++ "`) are not supported")
    | some (Resource.Compose n) => network_to_file p.1 n unit install
    | none => network_to_file p.1 ComposeNetwork.default unit install

/-- Embeds `volumes_try_into_quadlet_files` (compose.rs lines 411-437):
absent or empty volumes are filtered out, compose-managed non-empty volumes
go through the mapper, externally-managed entries are a hard error naming
the volume identifier. -/
def volumes_try_into_quadlet_files
    (volumes : List (Identifier × Option (Resource ComposeVolume)))
    (unit : Option Unit) (install : Option Install) :
    List (Except String quadlet.File) :=
  volumes.filterMap fun p =>
    match p.2 with
    | none => none
    | some (Resource.Compose v) =>
      if v.is_empty then none
      else some
        (match v.mapping with
         | .error e =>
           .error ("error converting volume `" ++ p.1 ++ "` into a Quadlet volume: " ++ e)
         | .ok qv =>
           .ok { name := p.1, unit := unit, resource := .volume qv,
                 globals := Globals.default, service := none, install := install })
    | some Resource.External =>
      some (.error ("external volumes (`" ++ p.1 ++ "`) are not supported"))

/-- Embeds the pod-wrapping block inside the service map of
`parts_try_into_files` (compose.rs lines 259-271): a file whose resource is
a container is renamed to `"{pod_name}-{name}"`, its published ports are
taken out (returned as the second component), and its pod membership is set
to `"{pod_name}.pod"`; any other file is untouched. -/
def wrap_in_pod (pod_name : String) (f : quadlet.File) : quadlet.File × List String :=
  match f.resource with
  | quadlet.Resource.container c =>
    ({ f with name := pod_name ++ "-" ++ f.name
              resource := quadlet.Resource.container
                { c with publish_port := [], pod := some (pod_name ++ ".pod") } },
     c.publish_port)
  | _ => (f, [])

/-- Embeds `parts_try_into_files` (compose.rs lines 226-304).  The source
accumulates `pod_ports` lazily while collecting the chained iterator; since
collection is fail-fast and produces nothing on error, this is equivalent to
collecting the service files first and then applying the pod wrap. -/
def parts_try_into_files (services : List (Identifier × Service))
    (networks : List (Identifier × Option (Resource ComposeNetwork)))
    (volumes : List (Identifier × Option (Resource ComposeVolume)))
    (pod_name : Option String) (unit : Option Unit) (install : Option Install) :
    Except String (List File) :=
  let vho := volume_has_options volumes
  match collectExcept
      (services.map fun p => service_try_into_quadlet_file p.2 p.1 unit install vho) with
  | .error e => .error e
  | .ok sfiles =>
    match collectExcept (networks_try_into_quadlet_files networks unit install) with
    | .error e => .error e
    | .ok nfiles =>
      match collectExcept (volumes_try_into_quadlet_files volumes unit install) with
      | .error e => .error e
      | .ok vfiles =>
        match pod_name with
        | none => .ok ((sfiles ++ nfiles ++ vfiles).map File.Quadlet)
        | some p =>
          let wrapped := sfiles.map (wrap_in_pod p)
          let pod_file : quadlet.File :=
            { name := p
              unit := unit
              resource := .pod ((wrapped.map Prod.snd).flatten)
              globals := Globals.default
              service := none
              install := install }
          .ok (((wrapped.map Prod.fst ++ nfiles ++ vfiles).map File.Quadlet) ++
            [File.Quadlet pod_file])

namespace k8s

/-- Modelled from the spec: the Kubernetes per-service fold step
(`Service::from_compose(&name, service).add_to_pod_spec(&mut spec)` lives in
`k8s/service.rs`, which is not among the given sources): every service, in
document order, appends its container spec to the shared pod spec, and a
failure is wrapped with the offending service identifier and aborts the fold
(k8s.rs lines 62-72). -/
def add_services_to_pod_spec : PodSpec → List (Identifier × Service) → Except String PodSpec
  | spec, [] => .ok spec
  | spec, (n, s) :: rest =>
    match s.k8s_container with
    | .error e =>
      .error ("error adding service `" ++ n ++ "` to Kubernetes pod spec: " ++ e)
    | .ok cont => add_services_to_pod_spec (spec ++ [cont]) rest

/-- Embeds the persistent-volume-claim pass of `TryFrom<Compose> for
k8s::File` (k8s.rs lines 83-93): compose-managed non-empty volumes are
converted (the per-volume converter in `k8s/volume.rs` is the volume's
`pvc_mapping` oracle) with failures wrapped with the volume identifier;
absent, empty, and externally-managed entries are skipped. -/
def volumes_try_into_pvcs
    (volumes : List (Identifier × Option (Resource ComposeVolume))) :
    List (Except String (List (String × String))) :=
  volumes.filterMap fun p =>
    match p.2 with
    | some (Resource.Compose v) =>
      if v.is_empty then none
      else some
        (match v.pvc_mapping with
         | .error e =>
           .error ("error converting volume `" ++ p.1 ++
             "` to a persistent volume claim: " ++ e)
         | .ok pvc => .ok pvc)
    | _ => none

/-- Embeds `TryFrom<Compose> for k8s::File` (k8s.rs lines 35-101): the
document-level checks (in source order: include, networks, configs, secrets,
extensions, then the required name), then the service fold, then the
persistent-volume-claim pass. -/
def File.try_from (c : Compose) : Except String File :=
  if !c.includes.isEmpty then .error "`include` is not supported"
  else if !c.networks.isEmpty then .error "`networks` is not supported"
  else if !c.configs.isEmpty then .error "`configs` is not supported"
  else if !c.secrets.isEmpty then .error "`secrets` is not supported"
  else if !c.extensions.isEmpty then .error "compose extensions are not supported"
  else
    match c.name with
    | none => .error "`name` is required"
    | some name =>
      match add_services_to_pod_spec [] c.services with
      | .error e => .error e
      | .ok spec =>
        match collectExcept (volumes_try_into_pvcs c.volumes) with
        | .error e => .error e
        | .ok pvcs =>
          .ok { name := name, pod_name := some name, pod_spec := spec,
                persistent_volume_claims := pvcs }

end k8s

/-- The error reported when `--pod` is used and the document has no top-level
name (compose.rs line 130). -/
def pod_name_required_error : String := "`name` is required when using `--pod`"

/-- The document-level unsupported-feature error messages of unit-file mode
(compose.rs lines 134-143). -/
def unsupported_feature_errors : List String :=
  ["`include` is not supported", "`configs` is not supported",
   "only external `secrets` are supported", "compose extensions are not supported"]

/-- The error string `e` mentions the identifier `n` verbatim. -/
def mentions (e n : String) : Prop := ∃ pre post, e = pre ++ n ++ post

/-- Embeds `Compose::try_into_files` (compose.rs lines 85-148), with the file
reading done at the out-of-scope boundary: the deserialized compose document
and the two mode flags are taken directly.  In the source the `--pod` name
requirement (lines 129-132) is evaluated before the document-level `ensure!`
checks (lines 134-143). -/
def Compose.try_into_files (pod kube : Bool) (compose : Compose)
    (unit : Option Unit) (install : Option Install) : Except String (List File) :=
  if kube then
    match k8s.File.try_from compose with
    | .error e => .error ("error converting compose file into Kubernetes YAML: " ++ e)
    | .ok kfile =>
      let quadlet_file : quadlet.File :=
        { name := kfile.name
          unit := unit
          resource := .kube (kfile.name ++ "-kube.yaml")
          globals := Globals.default
          service := none
          install := install }
      .ok [File.Quadlet quadlet_file, File.K8s { kfile with name := kfile.name ++ "-kube" }]
  else
    let pod_name_result : Except String (Option String) :=
      if pod then
        match compose.name with
        | some n => .ok (some n)
        | none => .error pod_name_required_error
      else .ok none
    match pod_name_result with
    | .error e => .error e
    | .ok pod_name =>
      if !compose.includes.isEmpty then .error "`include` is not supported"
      else if !compose.configs.isEmpty then .error "`configs` is not supported"
      else if !(compose.secrets.all fun q => q.2.is_external) then
        .error "only external `secrets` are supported"
      else if !compose.extensions.isEmpty then .error "compose extensions are not supported"
      else
        match parts_try_into_files compose.services compose.networks compose.volumes
            pod_name unit install with
        | .error e => .error ("error converting compose file into Quadlet files: " ++ e)
        | .ok files => .ok files

/-- Follows the spec's words (the refinement target for the volume option
linker): a named volume "has options" iff it is declared at top level,
compose-managed, and its option set is non-empty; names not declared at top
level default to "no options". -/
def declared_with_options
    (volumes : List (Identifier × Option (Resource ComposeVolume)))
    (src : String) : Bool :=
  match volumes.lookup src with
  | some (some (Resource.Compose v)) => !v.is_empty
  | _ => false

/-! Concrete fixtures used by the witness and counterexample theorems. -/

/-- A compose volume declared with one option. -/
def dataVolume : ComposeVolume :=
  ⟨[("device", "tmpfs")], .ok [("Device", "tmpfs")], .ok [("storage", "1Gi")]⟩

/-- Top-level volumes: `data` with options, `cache` declared empty, `extra`
declared with no body. -/
def demoVolumes : List (Identifier × Option (Resource ComposeVolume)) :=
  [("data", some (Resource.Compose dataVolume)),
   ("cache", some (Resource.Compose ⟨[], .ok [], .ok []⟩)),
   ("extra", none)]

/-- A service with no dependencies, no mounts, one published port. -/
def webService : Service :=
  { depends_on := .short []
    restart := none
    volumes := []
    ports := ["80:80"]
    global_args := ⟨[]⟩
    mapping_error := none
    k8s_container := .ok ⟨"web"⟩ }

/-- A service depending on `web`, mounting the declared volume `data`, the
empty-declared volume `cache`, an undeclared named volume, and a host path. -/
def dbService : Service :=
  { depends_on := .short ["web"]
    restart := some "always"
    volumes := [⟨some (Source.NamedVolume "data"), "/var/lib/data"⟩,
                ⟨some (Source.NamedVolume "cache"), "/cache"⟩,
                ⟨some (Source.NamedVolume "undeclared"), "/u"⟩,
                ⟨some (Source.HostPath "/host"), "/h"⟩]
    ports := ["5432:5432"]
    global_args := ⟨[]⟩
    mapping_error := none
    k8s_container := .ok ⟨"db"⟩ }

/-- Demo services in document order. -/
def demoServices : List (Identifier × Service) := [("web", webService), ("db", dbService)]

/-- One top-level network declared with no body. -/
def demoNetworks : List (Identifier × Option (Resource ComposeNetwork)) := [("backend", none)]

/-- The per-service quadlet files of the demo document (before pod wrapping). -/
def demoSfiles : List quadlet.File :=
  (collectExcept (demoServices.map fun p =>
    service_try_into_quadlet_file p.2 p.1 none none
      (volume_has_options demoVolumes))).toOption.getD []

/-- The network quadlet files of the demo document. -/
def demoNfiles : List quadlet.File :=
  (collectExcept (networks_try_into_quadlet_files demoNetworks none none)).toOption.getD []

/-- The volume quadlet files of the demo document. -/
def demoVfiles : List quadlet.File :=
  (collectExcept (volumes_try_into_quadlet_files demoVolumes none none)).toOption.getD []

/-- The full pod-wrapped conversion of the demo document. -/
def demoFiles : List File :=
  (parts_try_into_files demoServices demoNetworks demoVolumes (some "app")
    none none).toOption.getD []

/-- The quadlet file produced for `dbService` alone. -/
def dbQuadletFile : quadlet.File :=
  (service_try_into_quadlet_file dbService "db" none none
    (volume_has_options demoVolumes)).toOption.getD
    ⟨"", none, .pod [], Globals.default, none, none⟩

/-- The container resource of `dbQuadletFile`. -/
def dbContainer : Container :=
  match dbQuadletFile.resource with
  | .container c => c
  | _ => ⟨[], [], none⟩

/-! Helper lemmas about the fail-fast collection. -/

theorem collectExcept_map_ok {α : Type} (out : List α) :
    collectExcept (out.map Except.ok) = .ok out := by
  induction out with
  | nil => rfl
  | cons a l ih => simp [collectExcept, ih]

theorem collectExcept_ok_inv {α : Type} (l : List (Except String α)) :
    ∀ out : List α, collectExcept l = .ok out → l = out.map Except.ok := by
  induction l with
  | nil =>
    intro out h
    simp only [collectExcept] at h
    cases h
    rfl
  | cons x xs ih =>
    intro out h
    cases x with
    | error e => simp [collectExcept] at h
    | ok a =>
      simp only [collectExcept] at h
      cases hxs : collectExcept xs with
      | error e => rw [hxs] at h; simp at h
      | ok l' =>
        rw [hxs] at h
        simp only [Except.ok.injEq] at h
        subst h
        simp [ih l' hxs]

theorem collectExcept_ok_no_error {α : Type} (l : List (Except String α))
    (out : List α) (h : collectExcept l = .ok out) (e : String)
    (hmem : Except.error e ∈ l) : False := by
  rw [collectExcept_ok_inv l out h] at hmem
  simp [List.mem_map] at hmem

theorem mem_of_collectExcept_ok {α : Type} (l : List (Except String α))
    (out : List α) (h : collectExcept l = .ok out) (a : α) (ha : a ∈ out) :
    Except.ok a ∈ l := by
  rw [collectExcept_ok_inv l out h]
  exact List.mem_map_of_mem _ ha

theorem collectExcept_ok_length {α : Type} (l : List (Except String α))
    (out : List α) (h : collectExcept l = .ok out) : l.length = out.length := by
  rw [collectExcept_ok_inv l out h, List.length_map]

/-! Helper lemmas about the volume-options index and the service conversion. -/

theorem volume_has_options_lookup
    (volumes : List (Identifier × Option (Resource ComposeVolume))) (src : String) :
    ((volume_has_options volumes).lookup src).getD false =
      declared_with_options volumes src := by
  induction volumes with
  | nil => rfl
  | cons p rest ih =>
    obtain ⟨k, v⟩ := p
    simp only [volume_has_options, List.map_cons, declared_with_options,
      List.lookup_cons] at *
    cases hk : src == k with
    | true =>
      cases v with
      | none => rfl
      | some r => cases r <;> rfl
    | false => exact ih

theorem link_volume_spec
    (volumes : List (Identifier × Option (Resource ComposeVolume))) (m : Mount) :
    link_volume (volume_has_options volumes) m =
      match m.source with
      | some (Source.NamedVolume src) =>
        if declared_with_options volumes src then
          { m with source := some (Source.NamedVolume (src ++ ".volume")) }
        else m
      | _ => m := by
  simp only [link_volume, volume_has_options_lookup]

theorem service_try_ok_shape (service : Service) (name : Identifier)
    (unit : Option Unit) (install : Option Install) (vho : List (Identifier × Bool))
    (f : quadlet.File)
    (h : service_try_into_quadlet_file service name unit install vho = .ok f) :
    service.mapping_error = none ∧ ∃ u',
      f = { name := name, unit := u',
            resource := .container
              ⟨service.volumes.map (link_volume vho), service.ports, none⟩,
            globals := service.global_args, service := service.restart,
            install := install } ∧
      (service.depends_on.into_long = [] → u' = unit) := by
  simp only [service_try_into_quadlet_file, GlobalArgs.from_compose] at h
  split at h
  · simp at h
  · rename_i u' hu
    cases hme : service.mapping_error with
    | some e => rw [Container.try_from, hme] at h; simp at h
    | none =>
      rw [Container.try_from, hme] at h
      simp only [Except.ok.injEq] at h
      refine ⟨rfl, u', h.symm, fun hdeps => ?_⟩
      rw [if_pos (by simp [hdeps])] at hu
      exact (Except.ok.injEq _ _).mp hu.symm

theorem service_try_ok_indep (service : Service) (name : Identifier)
    (unit : Option Unit) (install : Option Install)
    (vho vho' : List (Identifier × Bool)) (f : quadlet.File)
    (h : service_try_into_quadlet_file service name unit install vho = .ok f) :
    ∃ f', service_try_into_quadlet_file service name unit install vho' = .ok f' := by
  have hme : service.mapping_error = none := (service_try_ok_shape _ _ _ _ _ _ h).1
  simp only [service_try_into_quadlet_file, GlobalArgs.from_compose] at h ⊢
  split at h
  · simp at h
  · rename_i u' hu
    rw [Container.try_from, hme]
    exact ⟨_, rfl⟩

/-! Helper lemmas about pod wrapping and the network/volume converters. -/

theorem wrap_in_pod_snd (p : String) (f : quadlet.File) :
    (wrap_in_pod p f).snd = f.container_ports := by
  cases hr : f.resource <;>
    simp [wrap_in_pod, quadlet.File.container_ports, hr]

theorem wrap_in_pod_fst_container (p : String) (f : quadlet.File) (c : Container)
    (h : f.resource = .container c) :
    (wrap_in_pod p f).fst =
      { f with name := p ++ "-" ++ f.name
               resource := .container
                 { c with publish_port := [], pod := some (p ++ ".pod") } } := by
  simp [wrap_in_pod, h]

theorem wrap_in_pod_fst_ports_empty (p : String) (f : quadlet.File) (c : Container)
    (h : ((wrap_in_pod p f).fst).resource = .container c) :
    c.publish_port = [] := by
  cases hr : f.resource with
  | container c0 =>
    rw [wrap_in_pod_fst_container p f c0 hr] at h
    simp only [quadlet.Resource.container.injEq] at h
    rw [← h]
  | network n => simp [wrap_in_pod, hr] at h
  | volume v => simp [wrap_in_pod, hr] at h
  | pod ports => simp [wrap_in_pod, hr] at h
  | kube path => simp [wrap_in_pod, hr] at h

theorem network_file_resource
    (networks : List (Identifier × Option (Resource ComposeNetwork)))
    (unit : Option Unit) (install : Option Install) (f : quadlet.File)
    (h : Except.ok f ∈ networks_try_into_quadlet_files networks unit install) :
    ∃ qn, f.resource = quadlet.Resource.network qn := by
  simp only [networks_try_into_quadlet_files, List.mem_map] at h
  obtain ⟨⟨nm, net⟩, -, heq⟩ := h
  have resolve : ∀ (cn : ComposeNetwork),
      network_to_file nm cn unit install = .ok f →
      ∃ qn, f.resource = quadlet.Resource.network qn := by
    intro cn hcn
    rw [network_to_file] at hcn
    cases hm : cn.mapping with
    | error e => rw [hm] at hcn; simp at hcn
    | ok qn =>
      rw [hm] at hcn
      simp only [Except.ok.injEq] at hcn
      exact ⟨qn, by rw [← hcn]⟩
  cases net with
  | none => exact resolve _ heq
  | some r =>
    cases r with
    | Compose cn => exact resolve cn heq
    | External => simp at heq

theorem volume_file_resource
    (volumes : List (Identifier × Option (Resource ComposeVolume)))
    (unit : Option Unit) (install : Option Install) (f : quadlet.File)
    (h : Except.ok f ∈ volumes_try_into_quadlet_files volumes unit install) :
    ∃ qv, f.resource = quadlet.Resource.volume qv := by
  simp only [volumes_try_into_quadlet_files, List.mem_filterMap] at h
  obtain ⟨⟨nm, vol⟩, -, heq⟩ := h
  cases vol with
  | none => simp at heq
  | some r =>
    cases r with
    | External => simp at heq
    | Compose v =>
      simp only at heq
      split at heq
      · simp at heq
      · simp only [Option.some.injEq] at heq
        cases hm : v.mapping with
        | error e => rw [hm] at heq; simp at heq
        | ok qv =>
          rw [hm] at heq
          simp only [Except.ok.injEq] at heq
          exact ⟨qv, by rw [← heq]⟩

theorem external_network_error_mem
    (networks : List (Identifier × Option (Resource ComposeNetwork)))
    (unit : Option Unit) (install : Option Install) (n : Identifier)
    (h : (n, some (Resource.External : Resource ComposeNetwork)) ∈ networks) :
    Except.error ("external networks (`" ++ n ++ "`) are not supported") ∈
      networks_try_into_quadlet_files networks unit install := by
  simp only [networks_try_into_quadlet_files, List.mem_map]
  exact ⟨(n, some Resource.External), h, rfl⟩

theorem external_volume_error_mem
    (volumes : List (Identifier × Option (Resource ComposeVolume)))
    (unit : Option Unit) (install : Option Install) (n : Identifier)
    (h : (n, some (Resource.External : Resource ComposeVolume)) ∈ volumes) :
    Except.error ("external volumes (`" ++ n ++ "`) are not supported") ∈
      volumes_try_into_quadlet_files volumes unit install := by
  simp only [volumes_try_into_quadlet_files, List.mem_filterMap]
  exact ⟨(n, some Resource.External), h, rfl⟩

/-! Helper lemmas decomposing `parts_try_into_files`. -/

theorem parts_ok_pod_decomp (services : List (Identifier × Service))
    (networks : List (Identifier × Option (Resource ComposeNetwork)))
    (volumes : List (Identifier × Option (Resource ComposeVolume)))
    (p : String) (unit : Option Unit) (install : Option Install) (files : List File)
    (h : parts_try_into_files services networks volumes (some p) unit install = .ok files) :
    ∃ sfiles nfiles vfiles,
      collectExcept (services.map fun q =>
        service_try_into_quadlet_file q.2 q.1 unit install
          (volume_has_options volumes)) = .ok sfiles ∧
      collectExcept (networks_try_into_quadlet_files networks unit install) = .ok nfiles ∧
      collectExcept (volumes_try_into_quadlet_files volumes unit install) = .ok vfiles ∧
      files = ((sfiles.map (wrap_in_pod p)).map Prod.fst ++ nfiles ++ vfiles).map
          File.Quadlet ++
        [File.Quadlet
          { name := p, unit := unit,
            resource := .pod (((sfiles.map (wrap_in_pod p)).map Prod.snd).flatten),
            globals := Globals.default, service := none, install := install }] := by
  simp only [parts_try_into_files] at h
  split at h
  · simp at h
  · rename_i sfiles hs
    split at h
    · simp at h
    · rename_i nfiles hn
      split at h
      · simp at h
      · rename_i vfiles hv
        simp only [Except.ok.injEq] at h
        exact ⟨sfiles, nfiles, vfiles, hs, hn, hv, h.symm⟩

theorem parts_error_of_network_error (services : List (Identifier × Service))
    (networks : List (Identifier × Option (Resource ComposeNetwork)))
    (volumes : List (Identifier × Option (Resource ComposeVolume)))
    (pod_name : Option String) (unit : Option Unit) (install : Option Install)
    (e : String)
    (hmem : Except.error e ∈ networks_try_into_quadlet_files networks unit install) :
    ∃ e', parts_try_into_files services networks volumes pod_name unit install =
      .error e' := by
  cases hres : parts_try_into_files services networks volumes pod_name unit install with
  | error e' => exact ⟨e', rfl⟩
  | ok files =>
    exfalso
    simp only [parts_try_into_files] at hres
    split at hres
    · simp at hres
    · rename_i sfiles hs
      split at hres
      · simp at hres
      · rename_i nfiles hn
        exact collectExcept_ok_no_error _ _ hn _ hmem

theorem parts_error_of_volume_error (services : List (Identifier × Service))
    (networks : List (Identifier × Option (Resource ComposeNetwork)))
    (volumes : List (Identifier × Option (Resource ComposeVolume)))
    (pod_name : Option String) (unit : Option Unit) (install : Option Install)
    (e : String)
    (hmem : Except.error e ∈ volumes_try_into_quadlet_files volumes unit install) :
    ∃ e', parts_try_into_files services networks volumes pod_name unit install =
      .error e' := by
  cases hres : parts_try_into_files services networks volumes pod_name unit install with
  | error e' => exact ⟨e', rfl⟩
  | ok files =>
    exfalso
    simp only [parts_try_into_files] at hres
    split at hres
    · simp at hres
    · rename_i sfiles hs
      split at hres
      · simp at hres
      · rename_i nfiles hn
        split at hres
        · simp at hres
        · rename_i vfiles hv
          exact collectExcept_ok_no_error _ _ hv _ hmem

/-! Claim theorems. -/

/-- C1: with the volume-options index built from the document's top-level
volumes, every container mount whose source is a named-volume reference to a
volume declared compose-managed with a non-empty option set has the suffix
`.volume` appended to its source; every other mount (other source kinds, and
named references to undeclared, empty, absent-bodied, or externally-managed
volumes) is left unchanged; and the linking step never raises an error: the
conversion succeeds for any index whenever it succeeds at all. -/
theorem volume_option_linking_correct
    (service : Service) (name : Identifier) (unit : Option Unit)
    (install : Option Install)
    (volumes : List (Identifier × Option (Resource ComposeVolume)))
    (f : quadlet.File) (c : Container)
    (h : service_try_into_quadlet_file service name unit install
      (volume_has_options volumes) = .ok f)
    (hc : f.resource = .container c) :
    c.volume = service.volumes.map (fun m =>
      match m.source with
      | some (Source.NamedVolume src) =>
        if declared_with_options volumes src then
          { m with source := some (Source.NamedVolume (src ++ ".volume")) }
        else m
      | _ => m) ∧
    ∀ vho', ∃ f',
      service_try_into_quadlet_file service name unit install vho' = .ok f' := by
  obtain ⟨hme, u', hf, -⟩ := service_try_ok_shape _ _ _ _ _ _ h
  refine ⟨?_, fun vho' => service_try_ok_indep _ _ _ _ _ vho' _ h⟩
  subst hf
  simp only [quadlet.Resource.container.injEq] at hc
  subst hc
  exact congrArg (service.volumes.map ·) (funext (link_volume_spec volumes))

/-- Witness for C1 at the demo database service: `data` is rewritten to
`data.volume`, while `cache`, the undeclared volume, and the host path are
unchanged. -/
theorem volume_option_linking_correct_witness :
    dbContainer.volume = dbService.volumes.map (fun m =>
      match m.source with
      | some (Source.NamedVolume src) =>
        if declared_with_options demoVolumes src then
          { m with source := some (Source.NamedVolume (src ++ ".volume")) }
        else m
      | _ => m) :=
  (volume_option_linking_correct dbService "db" none none demoVolumes
    dbQuadletFile dbContainer (by rfl) (by rfl)).1

/-- C2: when pod-wrapping is requested and conversion succeeds, the
synthesized pod file is the last output file and its published-port list is
the concatenation, in document service order, of each container's published
ports as they were before wrapping; and every container file in the output
has an empty published-port list. -/
theorem pod_port_aggregation (services : List (Identifier × Service))
    (networks : List (Identifier × Option (Resource ComposeNetwork)))
    (volumes : List (Identifier × Option (Resource ComposeVolume)))
    (p : String) (unit : Option Unit) (install : Option Install)
    (files : List File) (sfiles : List quadlet.File)
    (h : parts_try_into_files services networks volumes (some p) unit install = .ok files)
    (hs : collectExcept (services.map fun q =>
      service_try_into_quadlet_file q.2 q.1 unit install
        (volume_has_options volumes)) = .ok sfiles) :
    files.getLast? = some (File.Quadlet
      { name := p, unit := unit,
        resource := .pod ((sfiles.map quadlet.File.container_ports).flatten),
        globals := Globals.default, service := none, install := install }) ∧
    ∀ f ∈ files, ∀ qf c, f = File.Quadlet qf →
      qf.resource = quadlet.Resource.container c → c.publish_port = [] := by
  obtain ⟨sfiles', nfiles, vfiles, hs', hn, hv, hfiles⟩ :=
    parts_ok_pod_decomp _ _ _ _ _ _ _ h
  rw [hs] at hs'
  injection hs' with hs'
  subst hs'
  have hports : (sfiles.map (wrap_in_pod p)).map Prod.snd =
      sfiles.map quadlet.File.container_ports := by
    rw [List.map_map]
    exact congrArg (sfiles.map ·) (funext fun f => wrap_in_pod_snd p f)
  constructor
  · rw [hfiles, List.getLast?_concat, hports]
  · intro f hf qf c hfq hqc
    subst hfq
    rw [hfiles] at hf
    rcases List.mem_append.mp hf with hf | hf
    · obtain ⟨qf0, hqf0, hinj⟩ := List.mem_map.mp hf
      injection hinj with hinj
      subst hinj
      rcases List.mem_append.mp hqf0 with hqf0 | hqf0
      · rcases List.mem_append.mp hqf0 with hqf0 | hqf0
        · obtain ⟨wf, hwf, hfst⟩ := List.mem_map.mp hqf0
          obtain ⟨sf, hsf, hwrap⟩ := List.mem_map.mp hwf
          subst hwrap
          subst hfst
          exact wrap_in_pod_fst_ports_empty p sf c hqc
        · obtain ⟨qn, hres⟩ := network_file_resource networks unit install qf0
            (mem_of_collectExcept_ok _ _ hn qf0 hqf0)
          rw [hres] at hqc
          cases hqc
      · obtain ⟨qv, hres⟩ := volume_file_resource volumes unit install qf0
          (mem_of_collectExcept_ok _ _ hv qf0 hqf0)
        rw [hres] at hqc
        cases hqc
    · rcases List.mem_singleton.mp hf with hpod
      injection hpod with hpod
      subst hpod
      cases hqc

/-- Witness for C2 at the demo document: the last file is the `app` pod
carrying the ports of `web` and `db`. -/
theorem pod_port_aggregation_witness :
    demoFiles.getLast? = some (File.Quadlet
      { name := "app", unit := none,
        resource := .pod ((demoSfiles.map quadlet.File.container_ports).flatten),
        globals := Globals.default, service := none, install := none }) :=
  (pod_port_aggregation demoServices demoNetworks demoVolumes "app" none none
    demoFiles demoSfiles (by rfl) (by rfl)).1

/-- C3: when pod-wrapping with top-level name `p` succeeds, the `j`-th output
file (for the `j`-th service, in document order) is a container file renamed
to `"{p}-{service}"` whose container's pod-membership reference is
`"{p}.pod"`; exactly one additional file is produced; and that file, named
`p` and carrying a Pod resource, is the last element of the output. -/
theorem pod_naming_and_ordering (services : List (Identifier × Service))
    (networks : List (Identifier × Option (Resource ComposeNetwork)))
    (volumes : List (Identifier × Option (Resource ComposeVolume)))
    (p : String) (unit : Option Unit) (install : Option Install)
    (files : List File) (sfiles nfiles vfiles : List quadlet.File)
    (h : parts_try_into_files services networks volumes (some p) unit install = .ok files)
    (hs : collectExcept (services.map fun q =>
      service_try_into_quadlet_file q.2 q.1 unit install
        (volume_has_options volumes)) = .ok sfiles)
    (hn : collectExcept (networks_try_into_quadlet_files networks unit install) = .ok nfiles)
    (hv : collectExcept (volumes_try_into_quadlet_files volumes unit install) = .ok vfiles) :
    files.length = services.length + nfiles.length + vfiles.length + 1 ∧
    (∀ j, j < services.length → ∃ qf c,
      files[j]? = some (File.Quadlet qf) ∧
      qf.name = p ++ "-" ++ ((services[j]?.map Prod.fst).getD "") ∧
      qf.resource = quadlet.Resource.container c ∧
      c.pod = some (p ++ ".pod")) ∧
    ∃ ports, files.getLast? = some (File.Quadlet
      { name := p, unit := unit, resource := .pod ports,
        globals := Globals.default, service := none, install := install }) := by
  obtain ⟨sfiles', nfiles', vfiles', hs', hn', hv', hfiles⟩ :=
    parts_ok_pod_decomp _ _ _ _ _ _ _ h
  rw [hs] at hs'
  injection hs' with hs'
  subst hs'
  rw [hn] at hn'
  injection hn' with hn'
  subst hn'
  rw [hv] at hv'
  injection hv' with hv'
  subst hv'
  have hlen : services.length = sfiles.length := by
    have := collectExcept_ok_length _ _ hs
    simpa using this
  refine ⟨?_, ?_, ?_⟩
  · rw [hfiles]
    simp only [List.length_append, List.length_map, List.length_singleton]
    omega
  · intro j hj
    have hmap := collectExcept_ok_inv _ _ hs
    have hq : services[j]? = some services[j] := List.getElem?_eq_getElem hj
    have hjs : j < sfiles.length := hlen ▸ hj
    have hsf : sfiles[j]? = some sfiles[j] := List.getElem?_eq_getElem hjs
    have hgj : (services.map fun q => service_try_into_quadlet_file q.2 q.1 unit
        install (volume_has_options volumes))[j]? = (sfiles.map Except.ok)[j]? := by
      rw [hmap]
    rw [List.getElem?_map, List.getElem?_map, hq, hsf] at hgj
    simp only [Option.map_some'] at hgj
    injection hgj with hgj
    obtain ⟨-, u', hsfval, -⟩ := service_try_ok_shape _ _ _ _ _ _ hgj
    have hres : (sfiles[j]).resource = quadlet.Resource.container
        ⟨(services[j]).2.volumes.map (link_volume (volume_has_options volumes)),
         (services[j]).2.ports, none⟩ := by
      rw [hsfval]
    have hfj : files[j]? = some (File.Quadlet ((wrap_in_pod p sfiles[j]).fst)) := by
      rw [hfiles]
      rw [List.getElem?_append_left (by simp [List.length_append, List.length_map]; omega)]
      rw [List.getElem?_map]
      rw [List.getElem?_append_left (by simp [List.length_append, List.length_map]; omega)]
      rw [List.getElem?_append_left (by simp [List.length_map]; omega)]
      rw [List.getElem?_map, List.getElem?_map, hsf]
      rfl
    rw [wrap_in_pod_fst_container p sfiles[j] _ hres] at hfj
    refine ⟨_, _, hfj, ?_, rfl, rfl⟩
    simp only [hsfval, hq, Option.map_some', Option.getD_some]
  · rw [hfiles, List.getLast?_concat]
    exact ⟨_, rfl⟩

/-- Witness for C3 at the demo document: five files, the first named
`app-web` with pod membership `app.pod`, and the `app` pod file last. -/
theorem pod_naming_and_ordering_witness :
    demoFiles.length = demoServices.length + demoNfiles.length + demoVfiles.length + 1 ∧
    (∃ qf c, demoFiles[0]? = some (File.Quadlet qf) ∧
      qf.name = "app" ++ "-" ++ ((demoServices[0]?.map Prod.fst).getD "") ∧
      qf.resource = quadlet.Resource.container c ∧
      c.pod = some ("app" ++ ".pod")) ∧
    ∃ ports, demoFiles.getLast? = some (File.Quadlet
      { name := "app", unit := none, resource := .pod ports,
        globals := Globals.default, service := none, install := none }) := by
  have h := pod_naming_and_ordering demoServices demoNetworks demoVolumes "app"
    none none demoFiles demoSfiles demoNfiles demoVfiles
    (by rfl) (by rfl) (by rfl) (by rfl)
  exact ⟨h.1, h.2.1 0 (by decide), h.2.2⟩

/-- A document with one non-externally-managed secret, no top-level name, and
no other content. -/
def secretDoc : Compose :=
  { name := none, includes := [], services := [], networks := [], volumes := [],
    configs := [], secrets := [("token", Resource.Compose ⟨[]⟩)], extensions := [] }

/-- A document like `secretDoc` but with a top-level name. -/
def secretNamedDoc : Compose :=
  { name := some "app", includes := [], services := [], networks := [], volumes := [],
    configs := [], secrets := [("token", Resource.Compose ⟨[]⟩)], extensions := [] }

/-- Counterexample to C4 as stated: with the pod flag set and the top-level
name absent, a document whose secrets map has a non-externally-managed entry
fails with the missing-name error, which is not an unsupported-feature
error, because the source evaluates the `--pod` name requirement before the
document-level `ensure!` checks. -/
theorem secrets_rejection_cex :
    (secretDoc.secrets.all fun q => q.2.is_external) = false ∧
    Compose.try_into_files true false secretDoc none none =
      .error pod_name_required_error ∧
    pod_name_required_error ∉ unsupported_feature_errors := by
  exact ⟨rfl, by rfl, by decide⟩

/-- C4 (amended): for every document whose secrets map contains a
non-externally-managed entry, unit-file-mode conversion fails and produces no
output files; the error is an unsupported-feature error unless the pod flag
is set with the top-level name absent, in which case it is the missing-name
error. -/
theorem secrets_rejection (pod : Bool) (c : Compose) (unit : Option Unit)
    (install : Option Install)
    (hsec : (c.secrets.all fun q => q.2.is_external) = false) :
    ∃ e, Compose.try_into_files pod false c unit install = .error e ∧
      ((pod = true ∧ c.name = none) → e = pod_name_required_error) ∧
      (¬(pod = true ∧ c.name = none) → e ∈ unsupported_feature_errors) := by
  by_cases hpn : pod = true ∧ c.name = none
  · obtain ⟨hp, hname⟩ := hpn
    subst hp
    exact ⟨pod_name_required_error, by simp [Compose.try_into_files, hname],
      fun _ => rfl, fun hc => absurd ⟨rfl, hname⟩ hc⟩
  · have hproceed : ∃ pn,
        (if pod then
          match c.name with
          | some n => Except.ok (some n)
          | none => Except.error pod_name_required_error
         else (.ok none : Except String (Option String))) = .ok pn := by
      cases pod with
      | false => exact ⟨none, rfl⟩
      | true =>
        cases hname : c.name with
        | none => exact absurd ⟨rfl, hname⟩ hpn
        | some n => exact ⟨some n, by simp⟩
    obtain ⟨pn, hpn'⟩ := hproceed
    by_cases h1 : c.includes.isEmpty
    · by_cases h2 : c.configs.isEmpty
      · exact ⟨"only external `secrets` are supported",
          by simp [Compose.try_into_files, hpn', h1, h2, hsec],
          fun hc => absurd hc hpn, fun _ => by decide⟩
      · exact ⟨"`configs` is not supported",
          by simp [Compose.try_into_files, hpn', h1, h2],
          fun hc => absurd hc hpn, fun _ => by decide⟩
    · exact ⟨"`include` is not supported",
        by simp [Compose.try_into_files, hpn', h1],
        fun hc => absurd hc hpn, fun _ => by decide⟩

/-- Witness for the amended C4: with a top-level name present, the bad-secret
document is rejected with an unsupported-feature error. -/
theorem secrets_rejection_witness :
    ∃ e, Compose.try_into_files true false secretNamedDoc none none = .error e ∧
      e ∈ unsupported_feature_errors := by
  obtain ⟨e, he, -, hmem⟩ := secrets_rejection true secretNamedDoc none none rfl
  exact ⟨e, he, hmem (fun hcon => by simp [secretNamedDoc] at hcon)⟩

/-- Two externally-managed top-level networks. -/
def twoExternalNets : List (Identifier × Option (Resource ComposeNetwork)) :=
  [("aaa", some Resource.External), ("bbb", some Resource.External)]

/-- Counterexample to C5 as stated: with two externally-managed networks the
conversion fails with an error naming only the first (`aaa`); the overall
error does not name the identifier `bbb` even though `bbb` is an
externally-managed entry of the document. -/
theorem external_rejection_cex :
    ((("bbb" : Identifier), some (Resource.External : Resource ComposeNetwork)) ∈
      twoExternalNets) ∧
    parts_try_into_files [] twoExternalNets [] none none none =
      .error "external networks (`aaa`) are not supported" ∧
    ¬ mentions "external networks (`aaa`) are not supported" "bbb" := by
  refine ⟨List.mem_cons_of_mem _ (List.mem_cons_self _ _), by rfl, ?_⟩
  rintro ⟨pre, post, hpp⟩
  have hd := congrArg String.data hpp
  rw [String.data_append, String.data_append] at hd
  have hb : 'b' ∈ ("external networks (`aaa`) are not supported").data := by
    rw [hd]
    exact List.mem_append.mpr (Or.inl (List.mem_append.mpr (Or.inr (by decide))))
  exact absurd hb (by decide)

/-- C5 (amended): for every externally-managed top-level network or volume
entry, unit-file-mode conversion fails and produces no output files, and the
conversion of that entry is an error naming its identifier; the overall
error is the one of the first failing entry. -/
theorem external_rejection (services : List (Identifier × Service))
    (networks : List (Identifier × Option (Resource ComposeNetwork)))
    (volumes : List (Identifier × Option (Resource ComposeVolume)))
    (pod_name : Option String) (unit : Option Unit) (install : Option Install)
    (n : Identifier)
    (h : (n, some (Resource.External : Resource ComposeNetwork)) ∈ networks ∨
         (n, some (Resource.External : Resource ComposeVolume)) ∈ volumes) :
    (∃ e', parts_try_into_files services networks volumes pod_name unit install =
      .error e') ∧
    ((n, some (Resource.External : Resource ComposeNetwork)) ∈ networks →
      ∃ e, Except.error e ∈ networks_try_into_quadlet_files networks unit install ∧
        mentions e n) ∧
    ((n, some (Resource.External : Resource ComposeVolume)) ∈ volumes →
      ∃ e, Except.error e ∈ volumes_try_into_quadlet_files volumes unit install ∧
        mentions e n) := by
  refine ⟨?_, ?_, ?_⟩
  · cases h with
    | inl hmem =>
      exact parts_error_of_network_error services networks volumes pod_name unit
        install _ (external_network_error_mem networks unit install n hmem)
    | inr hmem =>
      exact parts_error_of_volume_error services networks volumes pod_name unit
        install _ (external_volume_error_mem volumes unit install n hmem)
  · intro hmem
    exact ⟨_, external_network_error_mem networks unit install n hmem, _, _, rfl⟩
  · intro hmem
    exact ⟨_, external_volume_error_mem volumes unit install n hmem, _, _, rfl⟩

/-- Witness for the amended C5: the document with two externally-managed
networks fails, and the conversion of entry `aaa` is an error naming `aaa`. -/
theorem external_rejection_witness :
    (∃ e', parts_try_into_files [] twoExternalNets [] none none none = .error e') ∧
    ∃ e, Except.error e ∈ networks_try_into_quadlet_files twoExternalNets none none ∧
      mentions e "aaa" := by
  have h := external_rejection [] twoExternalNets [] none none none "aaa"
    (Or.inl (List.mem_cons_self _ _))
  exact ⟨h.1, h.2.1 (List.mem_cons_self _ _)⟩

/-- A document with a document-level `include` entry and no top-level name. -/
def includeDoc : Compose :=
  { name := none, includes := ["other.yaml"], services := [], networks := [],
    volumes := [], configs := [], secrets := [], extensions := [] }

/-- Like `includeDoc` but with a top-level name. -/
def includeNamedDoc : Compose :=
  { name := some "app", includes := ["other.yaml"], services := [], networks := [],
    volumes := [], configs := [], secrets := [], extensions := [] }

/-- A service whose out-of-scope field mapping fails. -/
def badMappingService : Service :=
  { depends_on := .short [], restart := none, volumes := [], ports := [],
    global_args := ⟨[]⟩, mapping_error := some "boom", k8s_container := .error "boom" }

/-- Counterexample to C6 as stated: a document with a non-empty `include`
list, converted with the pod flag set and no top-level name, fails with the
missing-name error rather than the unsupported-feature error, because the
source evaluates the `--pod` name requirement before the document-level
checks. -/
theorem document_validator_order_cex :
    includeDoc.includes ≠ [] ∧
    Compose.try_into_files true false includeDoc none none =
      .error pod_name_required_error ∧
    pod_name_required_error ∉ unsupported_feature_errors := by
  exact ⟨by decide, by rfl, by decide⟩

/-- C6 (amended): the document-level unsupported-feature checks run before
any service, network, or volume is converted: whenever such a feature is
present and the `--pod` name requirement does not fire first (the pod flag
is unset or the top-level name is present), unit-file-mode conversion fails
with the same unsupported-feature error for every choice of services,
networks, and volumes. -/
theorem document_validator_order (pod : Bool) (c : Compose)
    (unit : Option Unit) (install : Option Install)
    (hfeat : c.includes ≠ [] ∨ c.configs ≠ [] ∨
      (c.secrets.all fun q => q.2.is_external) = false ∨ c.extensions ≠ [])
    (hpn : ¬(pod = true ∧ c.name = none)) :
    ∃ e, e ∈ unsupported_feature_errors ∧
      ∀ svcs nets vols,
        Compose.try_into_files pod false
          { c with services := svcs, networks := nets, volumes := vols }
          unit install = .error e := by
  by_cases h1 : c.includes.isEmpty
  case neg =>
    refine ⟨"`include` is not supported", by decide, fun svcs nets vols => ?_⟩
    cases pod with
    | false => simp [Compose.try_into_files, h1]
    | true =>
      obtain ⟨nm, hn⟩ : ∃ nm, c.name = some nm := by
        cases hn : c.name with
        | none => exact absurd ⟨rfl, hn⟩ hpn
        | some nm => exact ⟨nm, rfl⟩
      simp [Compose.try_into_files, hn, h1]
  case pos =>
    by_cases h2 : c.configs.isEmpty
    case neg =>
      refine ⟨"`configs` is not supported", by decide, fun svcs nets vols => ?_⟩
      cases pod with
      | false => simp [Compose.try_into_files, h1, h2]
      | true =>
        obtain ⟨nm, hn⟩ : ∃ nm, c.name = some nm := by
          cases hn : c.name with
          | none => exact absurd ⟨rfl, hn⟩ hpn
          | some nm => exact ⟨nm, rfl⟩
        simp [Compose.try_into_files, hn, h1, h2]
    case pos =>
      by_cases h3 : (c.secrets.all fun q => q.2.is_external) = true
      case neg =>
        have h3' : (c.secrets.all fun q => q.2.is_external) = false :=
          Bool.not_eq_true _ ▸ Bool.eq_false_iff.mpr h3
        refine ⟨"only external `secrets` are supported", by decide,
          fun svcs nets vols => ?_⟩
        cases pod with
        | false => simp [Compose.try_into_files, h1, h2, h3']
        | true =>
          obtain ⟨nm, hn⟩ : ∃ nm, c.name = some nm := by
            cases hn : c.name with
            | none => exact absurd ⟨rfl, hn⟩ hpn
            | some nm => exact ⟨nm, rfl⟩
          simp [Compose.try_into_files, hn, h1, h2, h3']
      case pos =>
        by_cases h4 : c.extensions.isEmpty
        case neg =>
          refine ⟨"compose extensions are not supported", by decide,
            fun svcs nets vols => ?_⟩
          cases pod with
          | false => simp [Compose.try_into_files, h1, h2, h3, h4]
          | true =>
            obtain ⟨nm, hn⟩ : ∃ nm, c.name = some nm := by
              cases hn : c.name with
              | none => exact absurd ⟨rfl, hn⟩ hpn
              | some nm => exact ⟨nm, rfl⟩
            simp [Compose.try_into_files, hn, h1, h2, h3, h4]
        case pos =>
          exfalso
          rcases hfeat with hf | hf | hf | hf
          · exact hf (List.isEmpty_iff.mp h1)
          · exact hf (List.isEmpty_iff.mp h2)
          · rw [h3] at hf; cases hf
          · exact hf (List.isEmpty_iff.mp h4)

/-- Witness for the amended C6: the include error is reported for the named
document even when a failing service and externally-managed networks are
also present. -/
theorem document_validator_order_witness :
    ∃ e, e ∈ unsupported_feature_errors ∧
      Compose.try_into_files true false
        { includeNamedDoc with
          services := [("bad", badMappingService)]
          networks := twoExternalNets
          volumes := [] } none none = .error e := by
  obtain ⟨e, hmem, hall⟩ := document_validator_order true includeNamedDoc none none
    (Or.inl (by decide)) (fun hcon => by simp [includeNamedDoc] at hcon)
  exact ⟨e, hmem, hall _ _ _⟩

/-- The quadlet file of the demo web service when no shared unit template is
supplied. -/
def webFileNoTemplate : quadlet.File :=
  (service_try_into_quadlet_file webService "web" none none []).toOption.getD
    ⟨"", none, .pod [], Globals.default, none, none⟩

/-- Counterexample to C7 as stated: a service with an empty normalized
dependency set converted under a supplied shared unit template produces a
file whose unit section is present (the template), not absent. -/
theorem empty_dependencies_unit_cex :
    webService.depends_on.into_long = [] ∧
    (service_try_into_quadlet_file webService "web" (some Unit.default) none
      []).map (fun f => f.unit) = .ok (some Unit.default) ∧
    some Unit.default ≠ (none : Option Unit) := by
  exact ⟨rfl, by rfl, by simp⟩

/-- C7 (amended): for every service whose normalized dependency set is empty,
no Unit is created during service resolution: the produced file's unit
section equals the supplied shared template, and in particular is absent
when no template was supplied. -/
theorem empty_dependencies_unit (service : Service) (name : Identifier)
    (unit : Option Unit) (install : Option Install)
    (vho : List (Identifier × Bool)) (f : quadlet.File)
    (hdeps : service.depends_on.into_long = [])
    (h : service_try_into_quadlet_file service name unit install vho = .ok f) :
    f.unit = unit := by
  obtain ⟨-, u', hf, himp⟩ := service_try_ok_shape _ _ _ _ _ _ h
  rw [hf]
  exact himp hdeps

/-- Witness for the amended C7: with no template supplied, the web service's
file has no unit section. -/
theorem empty_dependencies_unit_witness : webFileNoTemplate.unit = none :=
  empty_dependencies_unit webService "web" none none [] webFileNoTemplate rfl (by rfl)

/-- A document with a declared top-level network, for Kubernetes mode. -/
def netsDoc : Compose :=
  { name := some "app", includes := [], services := [],
    networks := [("net", none)], volumes := [], configs := [], secrets := [],
    extensions := [] }

/-- C8: in Kubernetes mode, conversion fails when `networks`, `configs`,
`secrets`, or extensions are non-empty at the document level or the
top-level name is absent, and the rejection happens before any service is
folded into the pod spec: the same error is produced for every choice of
services, both for the Kubernetes conversion itself and for the full
`try_into_files` run with the kube flag. -/
theorem k8s_validation_before_services (c : Compose)
    (h : c.networks ≠ [] ∨ c.configs ≠ [] ∨ c.secrets ≠ [] ∨
      c.extensions ≠ [] ∨ c.name = none) :
    ∃ e, k8s.File.try_from c = .error e ∧
      (∀ svcs, k8s.File.try_from { c with services := svcs } = .error e) ∧
      ∀ pd svcs unit install,
        Compose.try_into_files pd true { c with services := svcs } unit install =
          .error ("error converting compose file into Kubernetes YAML: " ++ e) := by
  have main : ∃ e, ∀ svcs,
      k8s.File.try_from { c with services := svcs } = .error e := by
    by_cases h0 : c.includes.isEmpty
    case neg =>
      exact ⟨"`include` is not supported", fun svcs => by simp [k8s.File.try_from, h0]⟩
    case pos =>
      by_cases h1 : c.networks.isEmpty
      case neg =>
        exact ⟨"`networks` is not supported",
          fun svcs => by simp [k8s.File.try_from, h0, h1]⟩
      case pos =>
        by_cases h2 : c.configs.isEmpty
        case neg =>
          exact ⟨"`configs` is not supported",
            fun svcs => by simp [k8s.File.try_from, h0, h1, h2]⟩
        case pos =>
          by_cases h3 : c.secrets.isEmpty
          case neg =>
            exact ⟨"`secrets` is not supported",
              fun svcs => by simp [k8s.File.try_from, h0, h1, h2, h3]⟩
          case pos =>
            by_cases h4 : c.extensions.isEmpty
            case neg =>
              exact ⟨"compose extensions are not supported",
                fun svcs => by simp [k8s.File.try_from, h0, h1, h2, h3, h4]⟩
            case pos =>
              cases hname : c.name with
              | none =>
                exact ⟨"`name` is required",
                  fun svcs => by simp [k8s.File.try_from, h0, h1, h2, h3, h4, hname]⟩
              | some nm =>
                exfalso
                rcases h with hf | hf | hf | hf | hf
                · exact hf (List.isEmpty_iff.mp h1)
                · exact hf (List.isEmpty_iff.mp h2)
                · exact hf (List.isEmpty_iff.mp h3)
                · exact hf (List.isEmpty_iff.mp h4)
                · rw [hname] at hf; cases hf
  obtain ⟨e, hall⟩ := main
  refine ⟨e, hall c.services, hall, fun pd svcs unit install => ?_⟩
  simp [Compose.try_into_files, hall svcs]

/-- Witness for C8: the document declaring a network is rejected in
Kubernetes mode with the same error even when a failing service is added. -/
theorem k8s_validation_before_services_witness :
    ∃ e, k8s.File.try_from netsDoc = .error e ∧
      k8s.File.try_from { netsDoc with services := [("bad", badMappingService)] } =
        .error e := by
  obtain ⟨e, h1, h2, -⟩ := k8s_validation_before_services netsDoc (Or.inl (by decide))
  exact ⟨e, h1, h2 _⟩

/-- C9: when Kubernetes-mode conversion succeeds for a document named `n`,
the output is the companion unit file named `n` whose Kube resource points
at `"{n}-kube.yaml"`, followed by the Kubernetes YAML artifact renamed to
`"{n}-kube"`, in that order. -/
theorem kube_mode_naming (pd : Bool) (c : Compose) (unit : Option Unit)
    (install : Option Install) (n : String) (kf : k8s.File)
    (hn : c.name = some n)
    (hk : k8s.File.try_from c = .ok kf) :
    kf.name = n ∧
    Compose.try_into_files pd true c unit install = .ok
      [File.Quadlet
        { name := n, unit := unit, resource := .kube (n ++ "-kube.yaml"),
          globals := Globals.default, service := none, install := install },
       File.K8s { kf with name := n ++ "-kube" }] := by
  have hname : kf.name = n := by
    simp only [k8s.File.try_from] at hk
    split at hk
    · simp at hk
    · split at hk
      · simp at hk
      · split at hk
        · simp at hk
        · split at hk
          · simp at hk
          · split at hk
            · simp at hk
            · rw [hn] at hk
              simp only [] at hk
              split at hk
              · simp at hk
              · split at hk
                · simp at hk
                · simp only [Except.ok.injEq] at hk
                  rw [← hk]
  refine ⟨hname, ?_⟩
  simp only [Compose.try_into_files, if_true]
  rw [hk]
  simp [hname]

/-- A document that converts successfully in Kubernetes mode. -/
def kubeDoc : Compose :=
  { name := some "app", includes := [], services := [("web", webService)],
    networks := [], volumes := demoVolumes, configs := [], secrets := [],
    extensions := [] }

/-- The Kubernetes file of `kubeDoc`. -/
def kubeKf : k8s.File :=
  (k8s.File.try_from kubeDoc).toOption.getD ⟨"", none, [], []⟩

/-- Witness for C9 at `kubeDoc`. -/
theorem kube_mode_naming_witness :
    kubeKf.name = "app" ∧
    Compose.try_into_files false true kubeDoc none none = .ok
      [File.Quadlet
        { name := "app", unit := none, resource := .kube ("app" ++ "-kube.yaml"),
          globals := Globals.default, service := none, install := none },
       File.K8s { kubeKf with name := "app" ++ "-kube" }] :=
  kube_mode_naming false kubeDoc none none "app" kubeKf rfl (by rfl)

/-- C10: pod wrapping is a frame over container files only: the segment of
the output between the service files and the final pod file equals, element
for element, exactly the files produced by the network and volume converters
(same names, resources, and sections; no pod prefix, no pod membership, no
ports moved). -/
theorem pod_frame_networks_volumes (services : List (Identifier × Service))
    (networks : List (Identifier × Option (Resource ComposeNetwork)))
    (volumes : List (Identifier × Option (Resource ComposeVolume)))
    (p : String) (unit : Option Unit) (install : Option Install)
    (files : List File) (sfiles nfiles vfiles : List quadlet.File)
    (h : parts_try_into_files services networks volumes (some p) unit install = .ok files)
    (hs : collectExcept (services.map fun q =>
      service_try_into_quadlet_file q.2 q.1 unit install
        (volume_has_options volumes)) = .ok sfiles)
    (hn : collectExcept (networks_try_into_quadlet_files networks unit install) = .ok nfiles)
    (hv : collectExcept (volumes_try_into_quadlet_files volumes unit install) = .ok vfiles) :
    (files.drop services.length).take (nfiles.length + vfiles.length) =
      (nfiles ++ vfiles).map File.Quadlet := by
  obtain ⟨sfiles', nfiles', vfiles', hs', hn', hv', hfiles⟩ :=
    parts_ok_pod_decomp _ _ _ _ _ _ _ h
  rw [hs] at hs'
  injection hs' with hs'
  subst hs'
  rw [hn] at hn'
  injection hn' with hn'
  subst hn'
  rw [hv] at hv'
  injection hv' with hv'
  subst hv'
  have hlen : services.length = sfiles.length := by
    have := collectExcept_ok_length _ _ hs
    simpa using this
  rw [hfiles, List.map_append, List.map_append, List.map_append]
  rw [List.append_assoc, List.append_assoc]
  have hlenA : services.length =
      (((sfiles.map (wrap_in_pod p)).map Prod.fst).map File.Quadlet).length := by
    simp [hlen]
  rw [hlenA, List.drop_left]
  rw [← List.append_assoc]
  have hlenNV : nfiles.length + vfiles.length =
      (nfiles.map File.Quadlet ++ vfiles.map File.Quadlet).length := by
    simp
  rw [hlenNV, List.take_left]

/-- Witness for C10 at the demo document: the `backend` network file and the
`data` volume file pass through pod wrapping untouched. -/
theorem pod_frame_networks_volumes_witness :
    (demoFiles.drop demoServices.length).take
      (demoNfiles.length + demoVfiles.length) =
      (demoNfiles ++ demoVfiles).map File.Quadlet :=
  pod_frame_networks_volumes demoServices demoNetworks demoVolumes "app" none none
    demoFiles demoSfiles demoNfiles demoVfiles (by rfl) (by rfl) (by rfl) (by rfl)

end Podlet
